import Mathlib

/-!
Shallow embedding of the authentication, session and authorization core of
the moutouri marketplace backend (Express + Mongoose), together with proofs
about the refresh-token lifecycle, the request gates and the ownership
checks. Users are modelled as records in a list standing for the MongoDB
user collection; `findOne` becomes `List.find?`, a `save` of a mutated
document becomes a `List.map` that rewrites the record with the matching id,
and the JavaScript clock is an explicit millisecond timestamp argument.
-/

namespace Moutouri

/-- Millisecond timestamps, as produced by the JavaScript Date.now clock. -/
abbrev Millis := Nat

/-- Seven days in milliseconds: the refresh-token lifetime used by
loginUser and the refresh handler (`Date.now() + 7 * 24 * 60 * 60 * 1000`). -/
def sevenDaysMs : Nat := 7 * 24 * 60 * 60 * 1000

/-- One hour in milliseconds: the access-token lifetime (`expiresIn: 1h`). -/
def oneHourMs : Nat := 60 * 60 * 1000

/-- A user document of the MongoDB user collection, with the fields the
authentication core reads and writes. The stored password hash is an
`Option` so that the Mongoose projection `select(-password)` can be
expressed as setting it to `none`. `isAdmin` is `Option Bool` because the
user schema does not declare such a field: a document where it was never
set reads as JavaScript `undefined`, modelled as `none`. -/
structure UserRec where
  id : Nat
  firstName : String
  lastName : String
  email : String
  phone : String
  image : Option String
  password : Option String
  role : String
  isActive : Bool
  isAdmin : Option Bool
  refreshToken : Option String
  refreshTokenExpiry : Option Millis
  deriving Repr, DecidableEq

/-- The observable part of an HTTP response: status code, the `success`
boolean every body carries, and the human-readable `message` (empty for
success bodies that carry no message field). -/
structure HttpResp where
  status : Nat
  success : Bool
  message : String
  deriving Repr, DecidableEq

/-- JavaScript falsiness of an optional string: `undefined` and the empty
string are falsy (`if (!refreshToken)`, `if (!token)`). -/
def jsFalsyStr : Option String → Bool
  | none => true
  | some s => s == ""

/-- JavaScript truthiness of a possibly-undefined boolean field
(`req.user.isAdmin`): `undefined` is falsy. -/
def jsTruthy : Option Bool → Bool
  | none => false
  | some b => b

/-- The Mongo query predicate of the refresh handler:
`{ refreshToken, refreshTokenExpiry: { $gt: new Date() } }`. A document
matches when its stored token equals the presented one and its stored
expiry is strictly greater than now; a `null` expiry never satisfies
`$gt` against a date. -/
def refreshMatch (now : Millis) (tok : String) (u : UserRec) : Bool :=
  u.refreshToken == some tok &&
    match u.refreshTokenExpiry with
    | some e => decide (now < e)
    | none => false

/-- `User.findOne({ refreshToken, refreshTokenExpiry: { $gt: new Date() } })`:
the refresh-token validation lookup. -/
def findByRefreshToken (db : List UserRec) (now : Millis) (tok : String) :
    Option UserRec :=
  db.find? (refreshMatch now tok)

/-- The claims payload of a signed access token: `{ id, email, role }`. -/
structure Claims where
  id : Nat
  email : String
  role : String
  deriving Repr, DecidableEq

/-- Outcome of the refresh handler `POST /api/users/refresh-token`:
the HTTP response, the freshly minted access-token claims and refresh
token on success, and the user collection after any save. -/
structure RefreshOut where
  resp : HttpResp
  newAccessClaims : Option Claims
  newRefreshToken : Option String
  db : List UserRec
  deriving Repr, DecidableEq

/-- The refresh handler (`exports.refreshToken`). `body` is the
`refreshToken` field of the request body; `fresh` is the random hex string
`crypto.randomBytes(40).toString(hex)` would produce for this call. The
handler rejects a falsy body with 400, looks the token up with the strict
`$gt` expiry filter, answers 401 with one fixed message when no document
matches, and otherwise overwrites the stored token and expiry
(`Date.now() + 7 days`) on the matched user document and answers 200. -/
def refreshTokenHandler (db : List UserRec) (now : Millis) (fresh : String)
    (body : Option String) : RefreshOut :=
  if jsFalsyStr body then
    ⟨⟨400, false, "Refresh token is required"⟩, none, none, db⟩
  else
    let tok := body.getD ""
    match findByRefreshToken db now tok with
    | none => ⟨⟨401, false, "Invalid or expired refresh token"⟩, none, none, db⟩
    | some u =>
        ⟨⟨200, true, ""⟩,
         some ⟨u.id, u.email, u.role⟩,
         some fresh,
         db.map fun v =>
           if v.id = u.id then
             { v with refreshToken := some fresh,
                      refreshTokenExpiry := some (now + sevenDaysMs) }
           else v⟩

/-- `generateRefreshToken(user)`: writes the fresh random token and an
expiry seven days ahead onto the user document and returns the token.
The source computes the expiry by calendar-day addition
(`setDate(getDate() + 7)`); it is modelled as the equivalent seven days
in milliseconds, matching the `Date.now() + 7 * 24 * 60 * 60 * 1000`
form the login and refresh handlers use. -/
def generateRefreshToken (now : Millis) (fresh : String) (u : UserRec) :
    String × UserRec :=
  (fresh,
   { u with refreshToken := some fresh,
            refreshTokenExpiry := some (now + sevenDaysMs) })

/-- Issuing a refresh token inside the collection: the document with the
given id is mutated by `generateRefreshToken` and saved. -/
def issueRefreshToken (db : List UserRec) (now : Millis) (fresh : String)
    (uid : Nat) : List UserRec :=
  db.map fun v => if v.id = uid then (generateRefreshToken now fresh v).2 else v

/-- Clearing the refresh-token fields of one document, as logout does. -/
def clearRefresh (u : UserRec) : UserRec :=
  { u with refreshToken := none, refreshTokenExpiry := none }

/-- The logout handler (`exports.logoutUser`): `User.findById(req.user.id)`;
when found, the refresh token and its expiry are set to `null` and the
document is saved; the response is 200 in every case, found or not. -/
def logoutUser (db : List UserRec) (uid : Nat) : HttpResp × List UserRec :=
  match db.find? (fun u => u.id == uid) with
  | some _ =>
      (⟨200, true, "Logged out successfully"⟩,
       db.map fun v => if v.id = uid then clearRefresh v else v)
  | none => (⟨200, true, "Logged out successfully"⟩, db)

/-- The login handler (`exports.loginUser`). Password comparison is the
external bcrypt `comparePassword`, passed in as `pwOk` (candidate plaintext
against the stored hash). Unknown email and wrong password share one
message; an inactive account is rejected with its own message before any
token is issued; otherwise a fresh refresh token and a seven-day expiry
are saved and the handler answers 200. -/
def loginUser (db : List UserRec) (now : Millis) (fresh : String)
    (pwOk : String → Option String → Bool) (email pw : String) :
    HttpResp × List UserRec :=
  match db.find? (fun u => u.email == email) with
  | none => (⟨401, false, "Invalid email or password"⟩, db)
  | some u =>
      if !(pwOk pw u.password) then
        (⟨401, false, "Invalid email or password"⟩, db)
      else if !u.isActive then
        (⟨401, false, "Your account has been deactivated"⟩, db)
      else
        (⟨200, true, ""⟩,
         db.map fun v =>
           if v.id = u.id then
             { v with refreshToken := some fresh,
                      refreshTokenExpiry := some (now + sevenDaysMs) }
           else v)

/-- Bearer-token extraction of the `protect` middleware: when
`req.headers.authorization` is present and starts with the literal
`Bearer` (its first six characters), the token is element 1 of the
space-split header (`authorization.split(' ')[1]`, `none` when the split
has no element 1). The splitting is done on the character list of the
header, which agrees character-for-character with the JavaScript
single-space `split`. -/
def extractBearer (hdr : Option String) : Option String :=
  match hdr with
  | some h =>
      if h.toList.take 6 = "Bearer".toList then
        ((h.toList.splitOn ' ').map fun cs => String.mk cs).get? 1
      else none
  | none => none

/-- The Mongoose projection `select(-password)`: the password hash is
removed from the loaded document. -/
def sanitize (u : UserRec) : UserRec := { u with password := none }

/-- Outcome of the `protect` middleware: either a short-circuit response,
or control passed onward with the loaded user attached to `req.user`. -/
inductive ProtectOut where
  | reject (resp : HttpResp)
  | accept (user : UserRec)
  deriving Repr, DecidableEq

/-- The session-validation middleware (`exports.protect`). `jwtVerify`
stands for `jwt.verify(token, process.env.JWT_SECRET)` at the time of the
request: it yields the embedded claims when the signature checks out and
the embedded expiry has not passed, and `none` (the thrown error) for a
malformed, tampered or expired token. A falsy extracted token is rejected
with 401; a failed verification is rejected with 401; then the user is
loaded with `User.findOne({ _id: decoded.id, isActive: true })` and a miss
(no such user, or the user deactivated) is rejected with 401; on success
the password-stripped user is attached and the chain proceeds. -/
def protect (jwtVerify : String → Option Claims) (db : List UserRec)
    (hdr : Option String) : ProtectOut :=
  let tokOpt := extractBearer hdr
  if jsFalsyStr tokOpt then
    .reject ⟨401, false, "Not authorized to access this route"⟩
  else
    match jwtVerify (tokOpt.getD "") with
    | none => .reject ⟨401, false, "Not authorized, token failed"⟩
    | some c =>
        match db.find? (fun u => u.id == c.id && u.isActive) with
        | none => .reject ⟨401, false, "User not found or inactive"⟩
        | some u => .accept (sanitize u)

/-- The admin middleware (`exports.admin`): passes exactly when a request
user is attached and its role is the string `admin`. -/
def adminGate (reqUser : Option UserRec) : Bool :=
  match reqUser with
  | some u => u.role == "admin"
  | none => false

/-- The admin middleware as a responder: `none` means `next()` was called,
`some r` is the 403 short-circuit response. -/
def adminMw (reqUser : Option UserRec) : Option HttpResp :=
  if adminGate reqUser then none
  else some ⟨403, false, "Not authorized as an admin"⟩

/-- The in-handler admin check of the part_004 dashboard-statistics
handler (`getAdminStats`): `if (!req.user.isAdmin) return 403`. It tests
the separate boolean `isAdmin` field, not the role string. `none` means
the check passed. -/
def getAdminStatsGate (u : UserRec) : Option HttpResp :=
  if !(jsTruthy u.isAdmin) then
    some ⟨403, false, "Access denied. Admin privileges required."⟩
  else none

/-- The in-handler admin check of the part_004 role-update handler
(`updateUserRole`): the same `if (!req.user.isAdmin) return 403` test. -/
def updateUserRoleGate (u : UserRec) : Option HttpResp :=
  if !(jsTruthy u.isAdmin) then
    some ⟨403, false, "Access denied. Admin privileges required."⟩
  else none

/-- A product document, with the fields the ownership gate and the soft
delete read and write: the publisher is stored as the id of the owning
user. -/
structure ProductRec where
  id : Nat
  publisher : Nat
  title : String
  category : Nat
  isActive : Bool
  deriving Repr, DecidableEq

/-- The ownership test shared by product update and product delete:
`product.publisher.toString() !== req.user._id.toString() &&
req.user.role !== admin` — true exactly when the request is denied. -/
def ownerOrAdminDenied (reqUser : UserRec) (p : ProductRec) : Bool :=
  p.publisher != reqUser.id && reqUser.role != "admin"

/-- The product-update handler (`exports.updateProduct`): 404 when the id
matches no product; 403 leaving the store untouched when the requester is
neither the publisher nor an admin; 400 when the body names a category
that does not exist; otherwise the body is applied to the document
(`findByIdAndUpdate` with the spread request body, abstracted as
`applyBody`) and the handler answers 200. -/
def updateProduct (pdb : List ProductRec) (cats : List Nat)
    (applyBody : ProductRec → ProductRec) (bodyCategory : Option Nat)
    (reqUser : UserRec) (pid : Nat) : HttpResp × List ProductRec :=
  match pdb.find? (fun p => p.id == pid) with
  | none => (⟨404, false, "Product not found"⟩, pdb)
  | some p =>
      if ownerOrAdminDenied reqUser p then
        (⟨403, false, "Not authorized to update this product"⟩, pdb)
      else
        match bodyCategory with
        | some c =>
            if !(cats.contains c) then (⟨400, false, "Invalid category"⟩, pdb)
            else
              (⟨200, true, ""⟩,
               pdb.map fun q => if q.id = pid then applyBody q else q)
        | none =>
            (⟨200, true, ""⟩,
             pdb.map fun q => if q.id = pid then applyBody q else q)

/-- The product-delete handler (`exports.deleteProduct`): 404 when the id
matches no product; 403 leaving the store untouched when the requester is
neither the publisher nor an admin; otherwise a soft delete (the document
keeps everything but its active flag, which is set to false; the
best-effort removal of stored images is an external side effect outside
the store). -/
def deleteProduct (pdb : List ProductRec) (reqUser : UserRec) (pid : Nat) :
    HttpResp × List ProductRec :=
  match pdb.find? (fun p => p.id == pid) with
  | none => (⟨404, false, "Product not found"⟩, pdb)
  | some p =>
      if ownerOrAdminDenied reqUser p then
        (⟨403, false, "Not authorized to delete this product"⟩, pdb)
      else
        (⟨200, true, "Product deleted successfully"⟩,
         pdb.map fun q => if q.id = p.id then { q with isActive := false } else q)

/-- The request state the profile routes thread through their middleware
chain: the raw authorization header, the `req.user` slot the protect
middleware fills, the optional profile fields of the body, and the
filename of an uploaded image if any. -/
structure ProfileReq where
  authHeader : Option String
  user : Option UserRec
  bodyFirstName : Option String
  bodyLastName : Option String
  bodyPhone : Option String
  reqFile : Option String
  deriving Repr, DecidableEq

/-- The update document the profile handler builds: each body field is
spread in only when truthy (`...(req.body.firstName && { firstName })`),
and the image path only when a file was uploaded. -/
def applyProfileBody (req : ProfileReq) (v : UserRec) : UserRec :=
  { v with
    firstName :=
      match req.bodyFirstName with
      | some s => if s == "" then v.firstName else s
      | none => v.firstName,
    lastName :=
      match req.bodyLastName with
      | some s => if s == "" then v.lastName else s
      | none => v.lastName,
    phone :=
      match req.bodyPhone with
      | some s => if s == "" then v.phone else s
      | none => v.phone,
    image :=
      match req.reqFile with
      | some f => some ("/uploads/" ++ f)
      | none => v.image }

/-- The profile-update handler (`exports.updateUserProfile`). Its first
statement reads `req.user.id`; when no middleware attached a user, that
property access throws on `undefined` and the catch block answers 500
with the fixed failure message. Otherwise `findByIdAndUpdate` applies the
body to the document with that id, answering 404 when the id matches no
user and 200 on success. -/
def updateUserProfile (db : List UserRec) (req : ProfileReq) :
    HttpResp × List UserRec :=
  match req.user with
  | none => (⟨500, false, "Failed to update profile"⟩, db)
  | some u =>
      match db.find? (fun v => v.id == u.id) with
      | none => (⟨404, false, "User not found"⟩, db)
      | some _ =>
          (⟨200, true, "Profile updated successfully"⟩,
           db.map fun v => if v.id = u.id then applyProfileBody req v else v)

/-- The profile-read handler (`exports.getUserProfile`): answers 401 when
no user is attached to the request, and 200 otherwise. It never writes. -/
def getUserProfile (req : ProfileReq) : HttpResp :=
  match req.user with
  | none => ⟨401, false, "User not found"⟩
  | some _ => ⟨200, true, ""⟩

/-- One element of an Express middleware chain on the profile routes.
The three upload steps (multer single upload, its error handler, and the
file-URL postprocessing) never touch the authentication state. -/
inductive Step where
  | protectStep
  | uploadStep
  | updateProfileHandler
  | getProfileHandler
  deriving Repr, DecidableEq

/-- A chain in flight: either some middleware already answered, or the
request is still travelling with the current store. -/
inductive ChainState where
  | halted (resp : HttpResp) (db : List UserRec)
  | next (req : ProfileReq) (db : List UserRec)
  deriving Repr, DecidableEq

/-- Small-step semantics of the profile middleware chains. -/
def runStep (jwtVerify : String → Option Claims) :
    ChainState → Step → ChainState
  | .halted r d, _ => .halted r d
  | .next req db, .protectStep =>
      match protect jwtVerify db req.authHeader with
      | .reject r => .halted r db
      | .accept u => .next { req with user := some u } db
  | .next req db, .uploadStep => .next req db
  | .next req db, .updateProfileHandler =>
      let out := updateUserProfile db req
      .halted out.1 out.2
  | .next req db, .getProfileHandler => .halted (getUserProfile req) db

/-- Running a whole route chain on a fresh request. -/
def runRoute (jwtVerify : String → Option Claims) (db : List UserRec)
    (chain : List Step) (req : ProfileReq) : ChainState :=
  chain.foldl (runStep jwtVerify) (.next req db)

/-- The `PUT /profile` chain exactly as registered in userRoutes.js:
`uploadSingle(image), handleUploadError, processUploadedFiles,
updateUserProfile` — the protect middleware is not in the chain. -/
def putProfileChain : List Step :=
  [.uploadStep, .uploadStep, .uploadStep, .updateProfileHandler]

/-- The `GET /profile` chain as registered in userRoutes.js:
`protect, getUserProfile`. -/
def getProfileChain : List Step :=
  [.protectStep, .getProfileHandler]

/-! ## Helper lemmas -/

/-- Characterization of the Mongo refresh lookup predicate. -/
lemma refreshMatch_iff (now : Millis) (tok : String) (u : UserRec) :
    refreshMatch now tok u = true ↔
      u.refreshToken = some tok ∧
        ∃ e, u.refreshTokenExpiry = some e ∧ now < e := by
  unfold refreshMatch
  cases hre : u.refreshTokenExpiry <;>
    simp [hre, Bool.and_eq_true, beq_iff_eq]

/-- The seven-day lifetime is positive. -/
lemma sevenDaysMs_pos : 0 < sevenDaysMs := by
  unfold sevenDaysMs; norm_num

/-- Clearing refresh fields twice is the same as clearing once. -/
lemma clearRefresh_idem (u : UserRec) :
    clearRefresh (clearRefresh u) = clearRefresh u := rfl

/-- Clearing refresh fields preserves the document id. -/
lemma clearRefresh_id (u : UserRec) : (clearRefresh u).id = u.id := rfl

/-! ## C8 -/

/-- C8: refresh-token validation fails uniformly. Whenever every stored
document fails the lookup — because its stored token differs from the
presented one (which covers a `null` token on file), or its expiry field
is `null`, or its expiry has passed — the handler produces one and the
same outcome: status 401 with the single message `Invalid or expired
refresh token`, no new tokens, and an untouched store. The caller cannot
distinguish the three causes because the response is this one constant. -/
theorem refresh_failure_uniform_response (db : List UserRec) (now : Millis)
    (fresh tok : String) (htok : tok ≠ "")
    (hcause : ∀ u ∈ db,
      u.refreshToken ≠ some tok ∨ u.refreshTokenExpiry = none ∨
        ∃ e, u.refreshTokenExpiry = some e ∧ e ≤ now) :
    refreshTokenHandler db now fresh (some tok) =
      ⟨⟨401, false, "Invalid or expired refresh token"⟩, none, none, db⟩ := by
  have hfind : findByRefreshToken db now tok = none := by
    unfold findByRefreshToken
    rw [List.find?_eq_none]
    intro u hu hmatch
    rcases (refreshMatch_iff now tok u).mp hmatch with ⟨h1, e, h2, h3⟩
    rcases hcause u hu with h | h | ⟨e2, he2, hle⟩
    · exact h h1
    · rw [h] at h2; cases h2
    · rw [he2] at h2
      injection h2 with h2e
      subst h2e
      exact absurd h3 (not_lt.mpr hle)
  unfold refreshTokenHandler
  have : jsFalsyStr (some tok) = false := by
    simp [jsFalsyStr, htok]
  rw [this]
  simp only [Option.getD_some, hfind, Bool.false_eq_true, if_false]

/-- C8 witness: the three failure causes on concrete one-user stores —
a store holding a different token, a store with a `null` token field, and
a store whose matching token expired at time 5 (queried at time 10) —
all produce exactly the same 401 response with the same message. -/
theorem refresh_failure_uniform_response_witness :
    refreshTokenHandler
        [⟨1, "A", "B", "a@x.com", "p", none, some "h", "user", true, none,
          some "other", some 999999999999⟩] 10 "f" (some "t") =
      ⟨⟨401, false, "Invalid or expired refresh token"⟩, none, none,
       [⟨1, "A", "B", "a@x.com", "p", none, some "h", "user", true, none,
         some "other", some 999999999999⟩]⟩ ∧
    refreshTokenHandler
        [⟨1, "A", "B", "a@x.com", "p", none, some "h", "user", true, none,
          none, none⟩] 10 "f" (some "t") =
      ⟨⟨401, false, "Invalid or expired refresh token"⟩, none, none,
       [⟨1, "A", "B", "a@x.com", "p", none, some "h", "user", true, none,
         none, none⟩]⟩ ∧
    refreshTokenHandler
        [⟨1, "A", "B", "a@x.com", "p", none, some "h", "user", true, none,
          some "t", some 5⟩] 10 "f" (some "t") =
      ⟨⟨401, false, "Invalid or expired refresh token"⟩, none, none,
       [⟨1, "A", "B", "a@x.com", "p", none, some "h", "user", true, none,
         some "t", some 5⟩]⟩ := by
  refine ⟨?_, ?_, ?_⟩
  · apply refresh_failure_uniform_response _ _ _ _ (by decide)
    intro u hu
    simp only [List.mem_singleton] at hu
    subst hu
    exact Or.inl (by decide)
  · apply refresh_failure_uniform_response _ _ _ _ (by decide)
    intro u hu
    simp only [List.mem_singleton] at hu
    subst hu
    exact Or.inr (Or.inl rfl)
  · apply refresh_failure_uniform_response _ _ _ _ (by decide)
    intro u hu
    simp only [List.mem_singleton] at hu
    subst hu
    exact Or.inr (Or.inr ⟨5, rfl, by norm_num⟩)

/-! ## C9 -/

/-- Applying the logout clearing map twice equals applying it once. -/
lemma clearMap_map (db : List UserRec) (uid : Nat) :
    ((db.map fun v => if v.id = uid then clearRefresh v else v).map
        fun v => if v.id = uid then clearRefresh v else v) =
      db.map fun v => if v.id = uid then clearRefresh v else v := by
  rw [List.map_map]
  have h : ((fun v : UserRec => if v.id = uid then clearRefresh v else v) ∘
      fun v : UserRec => if v.id = uid then clearRefresh v else v) =
      fun v : UserRec => if v.id = uid then clearRefresh v else v := by
    funext v
    by_cases hv : v.id = uid
    · simp [Function.comp, hv, clearRefresh]
    · simp [Function.comp, hv]
  rw [h]

/-- The id-lookup of logout is unchanged by the clearing map. -/
lemma clearMap_find (db : List UserRec) (uid : Nat) (u : UserRec)
    (hf : db.find? (fun v => v.id == uid) = some u) :
    (db.map fun v => if v.id = uid then clearRefresh v else v).find?
        (fun v => v.id == uid) =
      some (if u.id = uid then clearRefresh u else u) := by
  rw [List.find?_map]
  have h : ((fun v : UserRec => v.id == uid) ∘
      fun v : UserRec => if v.id = uid then clearRefresh v else v) =
      fun v : UserRec => v.id == uid := by
    funext v
    by_cases hv : v.id = uid <;> simp [Function.comp, hv, clearRefresh]
  rw [h, hf]
  rfl

/-- C9: logout sets the refresh token and its expiry to `null` on the
authenticated user, answers 200, and is idempotent: revoking again
succeeds with the same 200 response and leaves the store exactly as the
first revoke left it, every record with the user id still holding
`null` token fields. -/
theorem logout_clears_and_idempotent (db : List UserRec) (uid : Nat) :
    (logoutUser db uid).1 = ⟨200, true, "Logged out successfully"⟩ ∧
    (∀ v ∈ (logoutUser db uid).2, v.id = uid →
       v.refreshToken = none ∧ v.refreshTokenExpiry = none) ∧
    logoutUser (logoutUser db uid).2 uid =
      (⟨200, true, "Logged out successfully"⟩, (logoutUser db uid).2) := by
  cases hf : db.find? (fun v => v.id == uid) with
  | none =>
      have h1 : logoutUser db uid = (⟨200, true, "Logged out successfully"⟩, db) := by
        unfold logoutUser
        rw [hf]
      rw [h1]
      refine ⟨rfl, ?_, ?_⟩
      · intro v hv hvid
        have hnv := List.find?_eq_none.mp hf v hv
        simp [hvid] at hnv
      · unfold logoutUser
        rw [hf]
  | some u =>
      have h1 : logoutUser db uid =
          (⟨200, true, "Logged out successfully"⟩,
           db.map fun v => if v.id = uid then clearRefresh v else v) := by
        unfold logoutUser
        rw [hf]
      rw [h1]
      refine ⟨rfl, ?_, ?_⟩
      · intro v hv hvid
        rcases List.mem_map.mp hv with ⟨w, _, hw⟩
        by_cases hwid : w.id = uid
        · rw [if_pos hwid] at hw
          rw [← hw]
          exact ⟨rfl, rfl⟩
        · rw [if_neg hwid] at hw
          rw [← hw] at hvid
          exact absurd hvid hwid
      · unfold logoutUser
        rw [clearMap_find db uid u hf, clearMap_map]

/-- C9 witness: logging out a concrete user twice — the second revoke on
the already-revoked store still answers 200 and changes nothing. -/
theorem logout_clears_and_idempotent_witness :
    logoutUser
        (logoutUser
          [⟨1, "A", "B", "a@x.com", "p", none, some "h", "user", true, none,
            some "t", some 50⟩] 1).2 1 =
      (⟨200, true, "Logged out successfully"⟩,
       (logoutUser
          [⟨1, "A", "B", "a@x.com", "p", none, some "h", "user", true, none,
            some "t", some 50⟩] 1).2) :=
  (logout_clears_and_idempotent
    [⟨1, "A", "B", "a@x.com", "p", none, some "h", "user", true, none,
      some "t", some 50⟩] 1).2.2

/-! ## C6 -/

/-- C6: validation is strict on the expiry. After issuing a refresh token
at time `now0` (stored expiry `now0 + sevenDaysMs`), validation succeeds
at every instant strictly before the stored expiry and fails at the
stored expiry and at every later instant — the `$gt` filter demands that
the stored expiry be strictly greater than the query time. The token is
issued to some user of the store, and as a fresh random string it is not
already stored on any record. -/
theorem refresh_validation_strict_expiry_boundary
    (db : List UserRec) (now0 : Millis) (fresh : String) (uid : Nat)
    (hmem : ∃ u ∈ db, u.id = uid)
    (hfresh : ∀ v ∈ db, v.refreshToken ≠ some fresh) :
    (∀ now, now < now0 + sevenDaysMs →
       (findByRefreshToken (issueRefreshToken db now0 fresh uid) now
          fresh).isSome = true) ∧
    (∀ now, now0 + sevenDaysMs ≤ now →
       findByRefreshToken (issueRefreshToken db now0 fresh uid) now
         fresh = none) := by
  constructor
  · intro now hnow
    rcases hmem with ⟨u, hu, huid⟩
    unfold findByRefreshToken
    rw [List.find?_isSome]
    refine ⟨(generateRefreshToken now0 fresh u).2, ?_, ?_⟩
    · unfold issueRefreshToken
      exact List.mem_map.mpr ⟨u, hu, by rw [if_pos huid]⟩
    · exact (refreshMatch_iff _ _ _).mpr ⟨rfl, now0 + sevenDaysMs, rfl, hnow⟩
  · intro now hnow
    unfold findByRefreshToken
    rw [List.find?_eq_none]
    intro x hx hmatch
    rcases (refreshMatch_iff _ _ _).mp hmatch with ⟨h1, e, h2, h3⟩
    unfold issueRefreshToken at hx
    rcases List.mem_map.mp hx with ⟨w, hw, hwx⟩
    by_cases hwid : w.id = uid
    · rw [if_pos hwid] at hwx
      rw [← hwx] at h2
      have h2e : now0 + sevenDaysMs = e := by
        simpa [generateRefreshToken] using h2
      rw [← h2e] at h3
      exact absurd h3 (not_lt.mpr hnow)
    · rw [if_neg hwid] at hwx
      rw [← hwx] at h1
      exact absurd h1 (hfresh w hw)

/-- C6 witness: a store with one user (id 1); the token is issued at
time 0, so the stored expiry is `sevenDaysMs`. Validation one second
before the expiry succeeds; validation exactly at the expiry and one
second after it both fail. -/
theorem refresh_validation_strict_expiry_boundary_witness :
    (findByRefreshToken
        (issueRefreshToken
          [⟨1, "A", "B", "a@x.com", "p", none, some "h", "user", true, none,
            none, none⟩] 0 "f" 1) (sevenDaysMs - 1000) "f").isSome = true ∧
    findByRefreshToken
        (issueRefreshToken
          [⟨1, "A", "B", "a@x.com", "p", none, some "h", "user", true, none,
            none, none⟩] 0 "f" 1) sevenDaysMs "f" = none ∧
    findByRefreshToken
        (issueRefreshToken
          [⟨1, "A", "B", "a@x.com", "p", none, some "h", "user", true, none,
            none, none⟩] 0 "f" 1) (sevenDaysMs + 1000) "f" = none := by
  have h := refresh_validation_strict_expiry_boundary
    [⟨1, "A", "B", "a@x.com", "p", none, some "h", "user", true, none,
      none, none⟩] 0 "f" 1
    ⟨⟨1, "A", "B", "a@x.com", "p", none, some "h", "user", true, none,
      none, none⟩, by decide, rfl⟩
    (by intro v hv; simp only [List.mem_singleton] at hv; subst hv; decide)
  refine ⟨h.1 _ ?_, h.2 _ ?_, h.2 _ ?_⟩
  · norm_num [sevenDaysMs]
  · norm_num
  · norm_num

/-! ## C7 -/

/-- C7: issue and validate round-trip. Issuing a refresh token to user
`u` writes the fresh token and a seven-day expiry on the record of `u`,
and validating that token immediately (same clock instant) returns
exactly the updated record of `u` — the same identity, now carrying the
fresh token. Hypotheses: `u` is in the store, no other record shares its
id, and the fresh random token is not already stored anywhere. -/
theorem issue_then_validate_roundtrip
    (db : List UserRec) (now : Millis) (fresh : String) (u : UserRec)
    (hmem : u ∈ db)
    (huniq : ∀ v ∈ db, v.id = u.id → v = u)
    (hfresh : ∀ v ∈ db, v.refreshToken ≠ some fresh) :
    findByRefreshToken (issueRefreshToken db now fresh u.id) now fresh =
      some { u with refreshToken := some fresh,
                    refreshTokenExpiry := some (now + sevenDaysMs) } := by
  unfold findByRefreshToken issueRefreshToken
  revert hmem huniq hfresh
  induction db with
  | nil => intro hmem _ _; cases hmem
  | cons a l ih =>
      intro hmem huniq hfresh
      rw [List.map_cons]
      by_cases ha : a.id = u.id
      · have hau : a = u := huniq a (List.mem_cons_self a l) ha
        subst hau
        rw [if_pos rfl]
        have hp : refreshMatch now fresh
            ((generateRefreshToken now fresh a).2) = true :=
          (refreshMatch_iff _ _ _).mpr
            ⟨rfl, now + sevenDaysMs, rfl, Nat.lt_add_of_pos_right sevenDaysMs_pos⟩
        rw [List.find?_cons_of_pos _ hp]
        rfl
      · have hmem2 : u ∈ l := by
          rcases List.mem_cons.mp hmem with h | h
          · exact absurd (by rw [h]) ha
          · exact h
        have hnp : ¬ refreshMatch now fresh a = true := by
          intro hpa
          rcases (refreshMatch_iff _ _ _).mp hpa with ⟨h1, _⟩
          exact absurd h1 (hfresh a (List.mem_cons_self a l))
        rw [if_neg ha, List.find?_cons_of_neg _ hnp]
        exact ih hmem2
          (fun v hv => huniq v (List.mem_cons_of_mem a hv))
          (fun v hv => hfresh v (List.mem_cons_of_mem a hv))

/-- C7 witness: issuing the token `f` to the concrete user with id 1 at
time 0 and validating `f` at time 0 returns that user with the token and
the seven-day expiry stored on it. -/
theorem issue_then_validate_roundtrip_witness :
    findByRefreshToken
        (issueRefreshToken
          [⟨1, "A", "B", "a@x.com", "p", none, some "h", "user", true, none,
            none, none⟩] 0 "f" 1) 0 "f" =
      some ⟨1, "A", "B", "a@x.com", "p", none, some "h", "user", true, none,
            some "f", some (0 + sevenDaysMs)⟩ :=
  issue_then_validate_roundtrip
    [⟨1, "A", "B", "a@x.com", "p", none, some "h", "user", true, none,
      none, none⟩] 0 "f"
    ⟨1, "A", "B", "a@x.com", "p", none, some "h", "user", true, none,
      none, none⟩
    (by decide)
    (by intro v hv h; simp only [List.mem_singleton] at hv; exact hv)
    (by intro v hv; simp only [List.mem_singleton] at hv; subst hv; decide)

/-! ## C1 -/

/-- Shape of the refresh handler when the lookup misses. -/
lemma refreshTokenHandler_of_none (db : List UserRec) (now : Millis)
    (fresh tok : String) (htok : tok ≠ "")
    (hnone : findByRefreshToken db now tok = none) :
    refreshTokenHandler db now fresh (some tok) =
      ⟨⟨401, false, "Invalid or expired refresh token"⟩, none, none, db⟩ := by
  unfold refreshTokenHandler
  have hfalsy : jsFalsyStr (some tok) = false := by simp [jsFalsyStr, htok]
  rw [hfalsy]
  simp only [Option.getD_some, hnone, Bool.false_eq_true, if_false]

/-- Shape of the refresh handler when the lookup hits user `u`. -/
lemma refreshTokenHandler_of_some (db : List UserRec) (now : Millis)
    (fresh tok : String) (u : UserRec) (htok : tok ≠ "")
    (hfind : findByRefreshToken db now tok = some u) :
    refreshTokenHandler db now fresh (some tok) =
      ⟨⟨200, true, ""⟩, some ⟨u.id, u.email, u.role⟩, some fresh,
       db.map fun v =>
         if v.id = u.id then
           { v with refreshToken := some fresh,
                    refreshTokenExpiry := some (now + sevenDaysMs) }
         else v⟩ := by
  unfold refreshTokenHandler
  have hfalsy : jsFalsyStr (some tok) = false := by simp [jsFalsyStr, htok]
  rw [hfalsy]
  simp only [Option.getD_some, hfind, Bool.false_eq_true, if_false]

/-- C1: a rotate succeeds at most once per token. When a rotate with the
stored token `tok` of user `u` succeeds (the lookup hits `u`, and `u` is
the only holder of `tok`), the rotation overwrites the stored token with
the fresh random one, so a second rotate presenting the same now-stale
`tok` — at any later (or any) instant, with any fresh token — fails with
the 401 `Invalid or expired refresh token` response and leaves the store
as the first rotation left it. -/
theorem rotate_succeeds_at_most_once
    (db : List UserRec) (now1 now2 : Millis) (f1 f2 tok : String)
    (u : UserRec) (htok : tok ≠ "")
    (hfind : findByRefreshToken db now1 tok = some u)
    (huniq : ∀ v ∈ db, v.refreshToken = some tok → v.id = u.id)
    (hf1 : f1 ≠ tok) :
    (refreshTokenHandler db now1 f1 (some tok)).resp.status = 200 ∧
    refreshTokenHandler (refreshTokenHandler db now1 f1 (some tok)).db now2 f2
        (some tok) =
      ⟨⟨401, false, "Invalid or expired refresh token"⟩, none, none,
       (refreshTokenHandler db now1 f1 (some tok)).db⟩ := by
  have h1 := refreshTokenHandler_of_some db now1 f1 tok u htok hfind
  rw [h1]
  refine ⟨rfl, ?_⟩
  apply refreshTokenHandler_of_none _ _ _ _ htok
  unfold findByRefreshToken
  rw [List.find?_eq_none]
  intro x hx hmatch
  rcases (refreshMatch_iff _ _ _).mp hmatch with ⟨hx1, _⟩
  rcases List.mem_map.mp hx with ⟨w, hw, hwx⟩
  by_cases hwid : w.id = u.id
  · rw [if_pos hwid] at hwx
    rw [← hwx] at hx1
    simp only at hx1
    injection hx1 with hx1e
    exact hf1 hx1e
  · rw [if_neg hwid] at hwx
    rw [← hwx] at hx1
    exact hwid (huniq w hw hx1)

/-- C1 witness: a one-user store holding token `t0` with a far expiry;
rotating at time 0 with fresh token `f1` succeeds, and rotating again at
time 5 presenting the stale `t0` fails with the 401 response, the store
unchanged from the first rotation. -/
theorem rotate_succeeds_at_most_once_witness :
    (refreshTokenHandler
        [⟨1, "A", "B", "a@x.com", "p", none, some "h", "user", true, none,
          some "t0", some 999⟩] 0 "f1" (some "t0")).resp.status = 200 ∧
    refreshTokenHandler
        (refreshTokenHandler
          [⟨1, "A", "B", "a@x.com", "p", none, some "h", "user", true, none,
            some "t0", some 999⟩] 0 "f1" (some "t0")).db 5 "f2" (some "t0") =
      ⟨⟨401, false, "Invalid or expired refresh token"⟩, none, none,
       (refreshTokenHandler
          [⟨1, "A", "B", "a@x.com", "p", none, some "h", "user", true, none,
            some "t0", some 999⟩] 0 "f1" (some "t0")).db⟩ :=
  rotate_succeeds_at_most_once
    [⟨1, "A", "B", "a@x.com", "p", none, some "h", "user", true, none,
      some "t0", some 999⟩] 0 5 "f1" "f2" "t0"
    ⟨1, "A", "B", "a@x.com", "p", none, some "h", "user", true, none,
      some "t0", some 999⟩
    (by decide) (by decide)
    (by intro v hv h; simp only [List.mem_singleton] at hv; subst hv; rfl)
    (by decide)

/-! ## C2 -/

/-- C2: the refresh rotation does not consult the active flag. For a user
whose stored refresh token matches and whose stored expiry is in the
future, the rotation answers 200 and hands out a fresh token pair even
when the active flag is false, although the login handler refuses the
same deactivated user with the dedicated 401 response. The lookup of the
refresh handler filters only on the token and its expiry. -/
theorem refresh_rotation_ignores_inactive_flag
    (db : List UserRec) (now : Millis) (fresh tok pw : String) (u : UserRec)
    (pwOk : String → Option String → Bool)
    (htok : tok ≠ "")
    (hfind : findByRefreshToken db now tok = some u)
    (hinactive : u.isActive = false)
    (hemail : db.find? (fun v => v.email == u.email) = some u)
    (hpw : pwOk pw u.password = true) :
    (refreshTokenHandler db now fresh (some tok)).resp = ⟨200, true, ""⟩ ∧
    (refreshTokenHandler db now fresh (some tok)).newRefreshToken =
      some fresh ∧
    (loginUser db now fresh pwOk u.email pw).1 =
      ⟨401, false, "Your account has been deactivated"⟩ := by
  have h1 := refreshTokenHandler_of_some db now fresh tok u htok hfind
  rw [h1]
  refine ⟨rfl, rfl, ?_⟩
  unfold loginUser
  rw [hemail]
  simp only [hpw, hinactive, Bool.not_true, Bool.not_false, Bool.false_eq_true,
    if_false, if_true]

/-- C2 witness: a deactivated user whose stored token `t` expires at 99;
rotating at time 10 succeeds with a fresh token, while logging in as the
same user (password check passing) is refused as deactivated. -/
theorem refresh_rotation_ignores_inactive_flag_witness :
    (refreshTokenHandler
        [⟨1, "A", "B", "a@x.com", "p", none, some "h", "user", false, none,
          some "t", some 99⟩] 10 "f" (some "t")).resp = ⟨200, true, ""⟩ ∧
    (refreshTokenHandler
        [⟨1, "A", "B", "a@x.com", "p", none, some "h", "user", false, none,
          some "t", some 99⟩] 10 "f" (some "t")).newRefreshToken = some "f" ∧
    (loginUser
        [⟨1, "A", "B", "a@x.com", "p", none, some "h", "user", false, none,
          some "t", some 99⟩] 10 "f" (fun _ _ => true) "a@x.com" "pw").1 =
      ⟨401, false, "Your account has been deactivated"⟩ :=
  refresh_rotation_ignores_inactive_flag
    [⟨1, "A", "B", "a@x.com", "p", none, some "h", "user", false, none,
      some "t", some 99⟩] 10 "f" "t" "pw"
    ⟨1, "A", "B", "a@x.com", "p", none, some "h", "user", false, none,
      some "t", some 99⟩
    (fun _ _ => true)
    (by decide) (by decide) rfl (by decide) rfl

/-! ## C4 -/

/-- C4: the session validator rejects with 401 exactly when the bearer
token is absent or malformed (falsy extraction), or the token fails the
signature and expiry verification, or no active user with the id of the
claims exists in the store; every rejection carries status 401; on
acceptance the loaded user is attached with the password removed; and in
particular a validly verified token whose user records are all
deactivated is rejected — deactivation revokes effective access. -/
theorem protect_rejects_iff_spec (jv : String → Option Claims)
    (db : List UserRec) (hdr : Option String) :
    ((∃ r, protect jv db hdr = .reject r) ↔
      jsFalsyStr (extractBearer hdr) = true ∨
      (∃ t, extractBearer hdr = some t ∧ t ≠ "" ∧ jv t = none) ∨
      (∃ t c, extractBearer hdr = some t ∧ t ≠ "" ∧ jv t = some c ∧
        ∀ u ∈ db, ¬(u.id = c.id ∧ u.isActive = true))) ∧
    (∀ r, protect jv db hdr = .reject r → r.status = 401) ∧
    (∀ w, protect jv db hdr = .accept w →
      ∃ v ∈ db, v.isActive = true ∧ w = sanitize v ∧ w.password = none) ∧
    (∀ t c, extractBearer hdr = some t → t ≠ "" → jv t = some c →
      (∀ u ∈ db, u.id = c.id → u.isActive = false) →
      protect jv db hdr =
        .reject ⟨401, false, "User not found or inactive"⟩) := by
  cases he : extractBearer hdr with
  | none =>
      have hp : protect jv db hdr =
          .reject ⟨401, false, "Not authorized to access this route"⟩ := by
        simp [protect, he, jsFalsyStr]
      refine ⟨iff_of_true ⟨_, hp⟩ (Or.inl rfl), ?_, ?_, ?_⟩
      · intro r hr
        rw [hp] at hr
        injection hr with h
        rw [← h]
      · intro w hw
        rw [hp] at hw
        exact ProtectOut.noConfusion hw
      · intro t c het
        simp at het
  | some t =>
      by_cases ht : t = ""
      · subst ht
        have hp : protect jv db hdr =
            .reject ⟨401, false, "Not authorized to access this route"⟩ := by
          simp [protect, he, jsFalsyStr]
        refine ⟨iff_of_true ⟨_, hp⟩ (Or.inl rfl), ?_, ?_, ?_⟩
        · intro r hr
          rw [hp] at hr
          injection hr with h
          rw [← h]
        · intro w hw
          rw [hp] at hw
          exact ProtectOut.noConfusion hw
        · intro t' c het' ht'
          injection het' with h
          exact absurd h.symm ht'
      · cases hjv : jv t with
        | none =>
            have hp : protect jv db hdr =
                .reject ⟨401, false, "Not authorized, token failed"⟩ := by
              simp [protect, he, jsFalsyStr, ht, hjv]
            refine ⟨iff_of_true ⟨_, hp⟩
              (Or.inr (Or.inl ⟨t, rfl, ht, hjv⟩)), ?_, ?_, ?_⟩
            · intro r hr
              rw [hp] at hr
              injection hr with h
              rw [← h]
            · intro w hw
              rw [hp] at hw
              exact ProtectOut.noConfusion hw
            · intro t' c het' ht' hjv'
              injection het' with h
              rw [← h] at hjv'
              rw [hjv] at hjv'
              exact absurd hjv' (by simp)
        | some c =>
            cases hf : db.find? (fun u => u.id == c.id && u.isActive) with
            | none =>
                have hp : protect jv db hdr =
                    .reject ⟨401, false, "User not found or inactive"⟩ := by
                  simp [protect, he, jsFalsyStr, ht, hjv, hf]
                have hall : ∀ u ∈ db, ¬(u.id = c.id ∧ u.isActive = true) := by
                  intro u hu hc
                  have := List.find?_eq_none.mp hf u hu
                  simp only [Bool.and_eq_true, beq_iff_eq] at this
                  exact this ⟨hc.1, hc.2⟩
                refine ⟨iff_of_true ⟨_, hp⟩
                  (Or.inr (Or.inr ⟨t, c, rfl, ht, hjv, hall⟩)), ?_, ?_, ?_⟩
                · intro r hr
                  rw [hp] at hr
                  injection hr with h
                  rw [← h]
                · intro w hw
                  rw [hp] at hw
                  exact ProtectOut.noConfusion hw
                · intro t' c' het' ht' hjv' _
                  exact hp
            | some v =>
                have hvc := List.find?_some hf
                simp only [Bool.and_eq_true, beq_iff_eq] at hvc
                have hvmem : v ∈ db := List.mem_of_find?_eq_some hf
                have hp : protect jv db hdr = .accept (sanitize v) := by
                  simp [protect, he, jsFalsyStr, ht, hjv, hf]
                refine ⟨?_, ?_, ?_, ?_⟩
                · apply iff_of_false
                  · rintro ⟨r, hr⟩
                    rw [hp] at hr
                    exact ProtectOut.noConfusion hr
                  · rintro (h | ⟨t', het', ht', hjv'⟩ |
                      ⟨t', c', het', ht', hjv', hall⟩)
                    · simp [jsFalsyStr, ht] at h
                    · injection het' with h
                      rw [← h] at hjv'
                      rw [hjv] at hjv'
                      exact Option.noConfusion hjv'
                    · injection het' with h
                      rw [← h] at hjv'
                      rw [hjv] at hjv'
                      injection hjv' with h2
                      rw [← h2] at hall
                      exact hall v hvmem ⟨hvc.1, hvc.2⟩
                · intro r hr
                  rw [hp] at hr
                  exact ProtectOut.noConfusion hr
                · intro w hw
                  rw [hp] at hw
                  injection hw with h
                  exact ⟨v, hvmem, hvc.2, h.symm, by rw [← h]; rfl⟩
                · intro t' c' het' ht' hjv' hall
                  injection het' with h
                  rw [← h] at hjv'
                  rw [hjv] at hjv'
                  injection hjv' with h2
                  have := hall v hvmem (by rw [h2] at hvc; exact hvc.1)
                  rw [hvc.2] at this
                  exact absurd this (by simp)

/-- C4 witness: a token that verifies to the claims of user id 1, while
the only stored user with id 1 is deactivated — the validator rejects the
request with the 401 user-not-found-or-inactive response even though the
token itself verifies. -/
theorem protect_rejects_iff_spec_witness :
    protect
        (fun s => if s == "tok" then some ⟨1, "a@x.com", "user"⟩ else none)
        [⟨1, "A", "B", "a@x.com", "p", none, some "h", "user", false, none,
          none, none⟩]
        (some "Bearer tok") =
      .reject ⟨401, false, "User not found or inactive"⟩ :=
  (protect_rejects_iff_spec
      (fun s => if s == "tok" then some ⟨1, "a@x.com", "user"⟩ else none)
      [⟨1, "A", "B", "a@x.com", "p", none, some "h", "user", false, none,
        none, none⟩]
      (some "Bearer tok")).2.2.2 "tok" ⟨1, "a@x.com", "user"⟩
    rfl (by decide) rfl
    (by intro v hv h; simp only [List.mem_singleton] at hv; subst hv; rfl)

/-! ## C5 -/

/-- C5: the owner-or-admin gate on product update and delete passes
exactly when the requesting identity is the publisher of the product or
has role `admin`; in every other case both handlers answer 403 with the
store left unchanged. -/
theorem owner_or_admin_gate_spec
    (pdb : List ProductRec) (cats : List Nat)
    (applyBody : ProductRec → ProductRec) (bodyCategory : Option Nat)
    (reqUser : UserRec) (pid : Nat) (p : ProductRec)
    (hfind : pdb.find? (fun q => q.id == pid) = some p) :
    (ownerOrAdminDenied reqUser p = false ↔
      p.publisher = reqUser.id ∨ reqUser.role = "admin") ∧
    (ownerOrAdminDenied reqUser p = true →
      updateProduct pdb cats applyBody bodyCategory reqUser pid =
        (⟨403, false, "Not authorized to update this product"⟩, pdb) ∧
      deleteProduct pdb reqUser pid =
        (⟨403, false, "Not authorized to delete this product"⟩, pdb)) := by
  constructor
  · unfold ownerOrAdminDenied
    simp [bne]
    tauto
  · intro hden
    constructor
    · unfold updateProduct
      rw [hfind]
      simp [hden]
    · unfold deleteProduct
      rw [hfind]
      simp [hden]

/-- C5 witness: a product published by user 1; user 2 with role `user`
is denied: both update and delete answer 403 and the one-product store
is unchanged. -/
theorem owner_or_admin_gate_spec_witness :
    updateProduct [⟨10, 1, "bike", 3, true⟩] [3] id (some 3)
        ⟨2, "A", "B", "b@x.com", "p", none, some "h", "user", true, none,
          none, none⟩ 10 =
      (⟨403, false, "Not authorized to update this product"⟩,
       [⟨10, 1, "bike", 3, true⟩]) ∧
    deleteProduct [⟨10, 1, "bike", 3, true⟩]
        ⟨2, "A", "B", "b@x.com", "p", none, some "h", "user", true, none,
          none, none⟩ 10 =
      (⟨403, false, "Not authorized to delete this product"⟩,
       [⟨10, 1, "bike", 3, true⟩]) :=
  (owner_or_admin_gate_spec [⟨10, 1, "bike", 3, true⟩] [3] id (some 3)
      ⟨2, "A", "B", "b@x.com", "p", none, some "h", "user", true, none,
        none, none⟩ 10 ⟨10, 1, "bike", 3, true⟩ rfl).2 rfl

/-! ## C10 -/

/-- C10 counterexample: the user with role `admin` whose `isAdmin` field
was never set (the user schema declares no such field, so it reads as
undefined). The admin middleware passes this user, yet both the
dashboard-statistics gate and the role-update gate of part_004 deny it
with 403 — the two admin signals disagree, refuting the claim that no
user with role `admin` passes the middleware but is denied by the
handler check. -/
theorem admin_signals_disagree_counterexample :
    adminGate (some ⟨7, "A", "B", "a@x.com", "p", none, some "h", "admin",
      true, none, none, none⟩) = true ∧
    getAdminStatsGate ⟨7, "A", "B", "a@x.com", "p", none, some "h", "admin",
      true, none, none, none⟩ =
      some ⟨403, false, "Access denied. Admin privileges required."⟩ ∧
    updateUserRoleGate ⟨7, "A", "B", "a@x.com", "p", none, some "h", "admin",
      true, none, none, none⟩ =
      some ⟨403, false, "Access denied. Admin privileges required."⟩ :=
  ⟨rfl, rfl, rfl⟩

/-- C10 amended: the two admin signals are independent. The admin
middleware passes exactly the users whose role is `admin`, while the
part_004 dashboard-statistics and role-update gates pass exactly the
users whose separate boolean `isAdmin` field is set and true; the two
checks therefore agree only on users whose `isAdmin` truthiness happens
to coincide with their role being `admin`. -/
theorem admin_signals_characterization (u : UserRec) :
    (adminGate (some u) = true ↔ u.role = "admin") ∧
    (getAdminStatsGate u = none ↔ u.isAdmin = some true) ∧
    (updateUserRoleGate u = none ↔ u.isAdmin = some true) := by
  refine ⟨by simp [adminGate], ?_, ?_⟩
  · unfold getAdminStatsGate
    cases h : u.isAdmin with
    | none => simp [jsTruthy, h]
    | some b => cases b <;> simp [jsTruthy, h]
  · unfold updateUserRoleGate
    cases h : u.isAdmin with
    | none => simp [jsTruthy, h]
    | some b => cases b <;> simp [jsTruthy, h]

/-- C10 amended witness: a user carrying both signals coherently (role
`admin` and `isAdmin` true) passes the middleware and both handler
gates. -/
theorem admin_signals_characterization_witness :
    adminGate (some ⟨8, "A", "B", "a@x.com", "p", none, some "h", "admin",
      true, some true, none, none⟩) = true ∧
    getAdminStatsGate ⟨8, "A", "B", "a@x.com", "p", none, some "h", "admin",
      true, some true, none, none⟩ = none ∧
    updateUserRoleGate ⟨8, "A", "B", "a@x.com", "p", none, some "h", "admin",
      true, some true, none, none⟩ = none :=
  ⟨(admin_signals_characterization _).1.mpr rfl,
   (admin_signals_characterization _).2.1.mpr rfl,
   (admin_signals_characterization _).2.2.mpr rfl⟩

/-! ## C3 -/

/-- C3: the `PUT /profile` route chain of userRoutes.js does not contain
the protect middleware, unlike `GET /profile`. An unauthenticated
request (no authorization header) through the PUT chain is not answered
401: it reaches the profile-update handler, whose dereference of the
missing request user ends in the catch with the 500 failure response —
the handler executes. The same request through the GET chain is stopped
by protect with 401 before its handler runs. -/
theorem put_profile_chain_lacks_auth_gate :
    runRoute (fun _ => none) [] putProfileChain
        ⟨none, none, none, none, none, none⟩ =
      .halted ⟨500, false, "Failed to update profile"⟩ [] ∧
    runRoute (fun _ => none) [] getProfileChain
        ⟨none, none, none, none, none, none⟩ =
      .halted ⟨401, false, "Not authorized to access this route"⟩ [] ∧
    Step.protectStep ∉ putProfileChain ∧
    Step.protectStep ∈ getProfileChain :=
  ⟨rfl, rfl, by decide, by decide⟩

end Moutouri
